import Mathlib

/-!
Shallow embedding of the private-blockchain core (`src/time.js`): the
admission pipeline (`Blockchain._addBlock`), the chain validator
(`Blockchain.validateChain`), the ownership gate
(`Blockchain.submitStar` / `requestMessageOwnershipVerification`) and the
query operations (`getBlockByHash`, `getBlockByHeight`,
`getStarsByWalletAddress`).

External collaborators are abstracted exactly as the spec draws the
boundary: the SHA-256 digest over the canonical block encoding is an
arbitrary function `digest : HashInput → String`, the wallet-signature
check is an arbitrary function `verify : String → String → String → Bool`,
and the clock is an explicit `now : Int` argument.  The `Block` class
(`block.js`) is not part of the sources, so its two operations used by the
core (`validate`, here `selfValidate`, and `getBData`) are modelled from
the spec.

JavaScript particularities kept by the model:
* `validateChain` guards its linkage check by `block.height > 0` (the
  stored field), not by the loop index; at index 0 a block with positive
  height makes the JS code dereference `chain[-1].hash`, a `TypeError`
  that rejects the promise — modelled as `Except.error ()`.
* `parseInt(message.split(':')[1])` yields `NaN` when the second field has
  no leading integer (or is `undefined`); every arithmetic comparison with
  `NaN` is false — modelled by `jsParseInt : Option String → Option Int`
  with `none` standing for `NaN`.
* a rejected `_addBlock` validation pops the speculatively pushed block; a
  validation that throws leaves the promise unsettled with the block still
  pushed (`AddResult.hung`).
-/

/-- Block payload: the genesis sentinel object carrying only a data
string, or a star-registration record carrying owner, message, signature
and star.  The star object itself is opaque, kept as a string. -/
inductive Payload where
  | genesis (data : String)
  | starRecord (owner message signature star : String)
deriving DecidableEq, Repr

/-- Owner field of a decoded payload; the genesis payload carries none. -/
def Payload.owner : Payload → Option String
  | .genesis _ => none
  | .starRecord o _ _ _ => some o

/-- Star field of a decoded payload; the genesis payload carries none. -/
def Payload.star : Payload → Option String
  | .genesis _ => none
  | .starRecord _ _ _ s => some s

/-- A block with all identity fields assigned.  `previousBlockHash` is
`none` for the genesis block (the field is never assigned on it). -/
structure Block where
  height : Nat
  time : Int
  previousBlockHash : Option String
  hash : String
  body : Payload
deriving DecidableEq, Repr

/-- The canonical encoding fed to the digest: every block field except
`hash` itself. -/
structure HashInput where
  height : Nat
  time : Int
  previousBlockHash : Option String
  body : Payload
deriving DecidableEq, Repr

/-- The non-hash fields of a block, as digest input. -/
def Block.hashInput (b : Block) : HashInput :=
  ⟨b.height, b.time, b.previousBlockHash, b.body⟩

/-- Modelled from the spec: `block.js` is not in the sources; per §6 the
block exposes `selfValidate() -> bool`, which recomputes the hash over the
canonical encoding (the hash field excluded) and compares it with the
stored hash. -/
def Block.selfValidate (digest : HashInput → String) (b : Block) : Bool :=
  digest b.hashInput == b.hash

/-- Modelled from the spec: `block.js` is not in the sources; per §6 the
block exposes `decodePayload() -> payload | absent` (called `getBData` by
`getStarsByWalletAddress`), which decodes the stored payload. -/
def Block.getBData (b : Block) : Option Payload :=
  some b.body

/-- Rendering of a possibly-absent previous hash inside an error message
(the JS template literal prints the raw field). -/
def showOptHash : Option String → String
  | none => "null"
  | some s => s

/-- Linkage error message of `validateChain`
(`src/time.js:231`). -/
def linkageMsg (index : Nat) (storedPrev : Option String) (actualPrev : String) : String :=
  "Block " ++ toString index ++ " previousBlockHash set to " ++ showOptHash storedPrev ++
    ", but actual previous block hash was " ++ actualPrev

/-- Content (self-validation) error message of `validateChain`
(`src/time.js:246`). -/
def contentMsg (index : Nat) (storedHash : String) : String :=
  "Block " ++ toString index ++ " hash (" ++ storedHash ++ ") is invalid"

/-- One step of the linkage scan of `validateChain` (`src/time.js:228-234`):
guarded by the stored `block.height > 0`; JS reads `chain[index - 1]`,
which at index 0 is `undefined`, so `.hash` throws — `Except.error ()`. -/
def linkErrAt (chain : List Block) (index : Nat) (b : Block) : Except Unit (List String) :=
  if 0 < b.height then
    match (if index = 0 then none else chain.get? (index - 1)) with
    | none => Except.error ()
    | some prev =>
      if b.previousBlockHash ≠ some prev.hash then
        Except.ok [linkageMsg index b.previousBlockHash prev.hash]
      else Except.ok []
  else Except.ok []

/-- The linkage half of `validateChain`: scan every block in order,
accumulating linkage errors; a thrown `TypeError` aborts the scan. -/
def linkScan (chain : List Block) : Nat → List Block → Except Unit (List String)
  | _, [] => Except.ok []
  | i, b :: rest =>
    match linkErrAt chain i b with
    | Except.error e => Except.error e
    | Except.ok here =>
      match linkScan chain (i + 1) rest with
      | Except.error e => Except.error e
      | Except.ok there => Except.ok (here ++ there)

/-- The content half of `validateChain` (`src/time.js:241-249`): one error
per block whose `validate()` recomputation fails, in index order. -/
def contentScan (digest : HashInput → String) : Nat → List Block → List String
  | _, [] => []
  | i, b :: rest =>
    (if b.selfValidate digest then [] else [contentMsg i b.hash]) ++
      contentScan digest (i + 1) rest

/-- `Blockchain.validateChain` (`src/time.js:220-254`): linkage errors in
index order, then content errors in index order; `Except.error ()` models
the promise rejecting with the `TypeError` thrown on a positive-height
block at index 0. -/
def validateChain (digest : HashInput → String) (chain : List Block) :
    Except Unit (List String) :=
  match linkScan chain 0 chain with
  | Except.error e => Except.error e
  | Except.ok linkErrs => Except.ok (linkErrs ++ contentScan digest 0 chain)

/-- The block assembled by `Blockchain._addBlock` (`src/time.js:72-82`):
`height` is the current chain length, `time` the clock value,
`previousBlockHash` the hash of `chain[chain.length - 1]` when the chain is
non-empty, and `hash` the digest of the canonical encoding of the other
fields. -/
def mkBlock (digest : HashInput → String) (now : Int) (chain : List Block)
    (p : Payload) : Block :=
  let height := chain.length
  let prev : Option String :=
    if 0 < chain.length then (chain.get? (chain.length - 1)).map Block.hash
    else none
  { height := height, time := now, previousBlockHash := prev,
    hash := digest ⟨height, now, prev, p⟩, body := p }

/-- Outcome of `_addBlock`: the promise resolves with the block, rejects
with the validation error log, or (when `validateChain` itself throws)
never settles. -/
inductive AddResult where
  | ok (b : Block)
  | rejected (errs : List String)
  | hung
deriving DecidableEq, Repr

/-- `Blockchain._addBlock` (`src/time.js:69-96`): assemble the block, push
it speculatively, re-validate the whole chain; pop and reject on a
non-empty error log, resolve with the block otherwise.  Returns the chain
as left visible to later readers together with the promise's outcome. -/
def _addBlock (digest : HashInput → String) (now : Int) (chain : List Block)
    (p : Payload) : List Block × AddResult :=
  match validateChain digest (chain ++ [mkBlock digest now chain p]) with
  | Except.error _ => (chain ++ [mkBlock digest now chain p], AddResult.hung)
  | Except.ok errs =>
    if errs.isEmpty then
      (chain ++ [mkBlock digest now chain p], AddResult.ok (mkBlock digest now chain p))
    else (chain, AddResult.rejected errs)

/-- The genesis payload used by `initializeChain` (`src/time.js:52`). -/
def genesisPayload : Payload :=
  Payload.genesis "Genesis Block"

/-- `Blockchain.requestMessageOwnershipVerification`
(`src/time.js:106-112`). -/
def requestMessageOwnershipVerification (address : String) (now : Int) : String :=
  address ++ ":" ++ toString now ++ ":starRegistry"

/-- JavaScript `parseInt` restricted to decimal input, on the possibly
`undefined` result of an array index: skip leading spaces, an optional
sign, then a leading run of digits; `none` stands for `NaN` (empty digit
run, or `parseInt(undefined)`). -/
def jsParseInt (s : Option String) : Option Int :=
  match s with
  | none => none
  | some s =>
    let afterSpace := s.toList.dropWhile (fun c => c = ' ')
    let signAndDigits : Bool × List Char :=
      match afterSpace with
      | '-' :: rest => (true, rest)
      | '+' :: rest => (false, rest)
      | cs => (false, cs)
    let ds := signAndDigits.2.takeWhile Char.isDigit
    if ds.isEmpty then none
    else
      let n : Nat := ds.foldl (fun acc c => acc * 10 + (c.toNat - 48)) 0
      if signAndDigits.1 then some (-(n : Int)) else some (n : Int)

/-- Outcome of `submitStar`: resolve with the block, reject with the
string `'Signature is invalid'`, reject with the string
`'Exceeded validation time of 5 minutes'`, reject with the propagated
validation error log, or never settle. -/
inductive SubmitResult where
  | ok (b : Block)
  | invalidSignature
  | windowExpired
  | chainError (errs : List String)
  | hung
deriving DecidableEq, Repr

/-- JavaScript `String.prototype.split` with a single-character separator,
on character lists: split at every separator, keeping empty fields. -/
def splitChars (sep : Char) : List Char → List (List Char)
  | [] => [[]]
  | c :: cs =>
    if c = sep then [] :: splitChars sep cs
    else
      match splitChars sep cs with
      | [] => [[c]]
      | f :: rest => (c :: f) :: rest

/-- JavaScript `s.split(sep)` for a one-character separator. -/
def jsSplit (sep : Char) (s : String) : List String :=
  (splitChars sep s.toList).map (fun cs => String.mk cs)

/-- Decidable equality on `Except`, for evaluating the model's results on
concrete inputs. -/
instance exceptDecEq {ε α : Type} [DecidableEq ε] [DecidableEq α] :
    DecidableEq (Except ε α) := fun x y =>
  match x, y with
  | .error e, .error f =>
    if h : e = f then isTrue (by rw [h])
    else isFalse (by intro hh; cases hh; exact h rfl)
  | .error _, .ok _ => isFalse (by intro hh; cases hh)
  | .ok _, .error _ => isFalse (by intro hh; cases hh)
  | .ok a, .ok b =>
    if h : a = b then isTrue (by rw [h])
    else isFalse (by intro hh; cases hh; exact h rfl)

/-- The test `currentTime - messageTime < 5 * 60` of `src/time.js:137`:
false whenever `messageTime` is `NaN` (every comparison with `NaN` is
false in JavaScript). -/
def inValidationWindow (now : Int) (messageTime : Option Int) : Bool :=
  match messageTime with
  | none => false
  | some t => decide (now - t < 5 * 60)

/-- `Blockchain.submitStar` (`src/time.js:131-156`): read the embedded
time from the second colon-delimited field of the message; when
`currentTime - messageTime < 300` holds (false on `NaN`), verify the
signature and delegate to `_addBlock`; otherwise reject with the
window-expired message without verifying. -/
def submitStar (digest : HashInput → String)
    (verify : String → String → String → Bool) (now : Int)
    (chain : List Block) (address message signature star : String) :
    List Block × SubmitResult :=
  if inValidationWindow now (jsParseInt ((jsSplit ':' message).get? 1)) then
    if verify message address signature then
      match _addBlock digest now chain (Payload.starRecord address message signature star) with
      | (c, AddResult.ok b) => (c, SubmitResult.ok b)
      | (c, AddResult.rejected errs) => (c, SubmitResult.chainError errs)
      | (c, AddResult.hung) => (c, SubmitResult.hung)
    else (chain, SubmitResult.invalidSignature)
  else (chain, SubmitResult.windowExpired)

/-- `Blockchain.getBlockByHash` (`src/time.js:164-174`): first element of
the filtered chain, rejecting with the fixed message when there is none. -/
def getBlockByHash (chain : List Block) (h : String) : Except String Block :=
  match chain.filter (fun b => b.hash == h) with
  | [] => Except.error "No block with given hash exists"
  | b :: _ => Except.ok b

/-- `Blockchain.getBlockByHeight` (`src/time.js:181-191`): first element
of the filtered chain, resolving with `null` (`none`) when there is
none. -/
def getBlockByHeight (chain : List Block) (height : Nat) : Option Block :=
  match chain.filter (fun b => b.height == height) with
  | [] => none
  | b :: _ => some b

/-- `Blockchain.getStarsByWalletAddress` (`src/time.js:199-212`): decode
every block (`getBData`), keep the decoded payloads that exist and whose
owner is the given address, project each to its star field. -/
def getStarsByWalletAddress (chain : List Block) (address : String) :
    List (Option String) :=
  (((chain.map Block.getBData).filter
      (fun d =>
        match d with
        | some p => p.owner == some address
        | none => false)).map
    (fun d =>
      match d with
      | some p => p.star
      | none => none))

/-- Chains reachable through the admission pipeline: the genesis block put
in place by `initializeChain`, extended by successful `_addBlock` or
`submitStar` calls. -/
inductive Built (digest : HashInput → String) : List Block → Prop
  | genesis (now : Int) :
      Built digest (_addBlock digest now [] genesisPayload).1
  | stepAdd (now : Int) (p : Payload) (chain c : List Block) (b : Block) :
      Built digest chain → _addBlock digest now chain p = (c, AddResult.ok b) →
      Built digest c
  | stepSubmit (verify : String → String → String → Bool) (now : Int)
      (chain c : List Block) (address message signature star : String) (b : Block) :
      Built digest chain →
      submitStar digest verify now chain address message signature star =
        (c, SubmitResult.ok b) →
      Built digest c

/-- Injective string encoding of a payload, used by the concrete test
digest below. -/
def encodePayload : Payload → String
  | .genesis d => "G(" ++ d ++ ")"
  | .starRecord o m s st => "S(" ++ o ++ "," ++ m ++ "," ++ s ++ "," ++ st ++ ")"

/-- A concrete stand-in for the external SHA-256 digest, used to evaluate
the model on test inputs. -/
def toyDigest (hi : HashInput) : String :=
  "#" ++ toString hi.height ++ "|" ++ toString hi.time ++ "|" ++
    showOptHash hi.previousBlockHash ++ "|" ++ encodePayload hi.body

/-- A verification stub that accepts every signature, for test inputs. -/
def acceptAll (_message _address _signature : String) : Bool :=
  true

/-- The genesis block as committed by `initializeChain` at clock 100, under
the test digest. -/
def demoGenesis : Block :=
  mkBlock toyDigest 100 [] genesisPayload

/-- The chain right after initialization, under the test digest. -/
def demoChain1 : List Block :=
  [demoGenesis]

/-- The challenge message of the spec scenario, as issued at clock 1000. -/
def demoMessage : String :=
  "addr1:1000:starRegistry"

/-- The star block committed by the spec scenario `submitStar` at clock
1200, under the test digest. -/
def demoBlock1 : Block :=
  mkBlock toyDigest 1200 demoChain1 (Payload.starRecord "addr1" demoMessage "sig1" "star1")

/-- The two-block chain of the spec scenario, under the test digest. -/
def demoChain2 : List Block :=
  demoChain1 ++ [demoBlock1]

/-- A successful `_addBlock` call committed exactly the assembled block at
the end of the chain, and the committed chain passed full validation with
an empty error log. -/
theorem addBlock_ok_iff_spelled (digest : HashInput → String) (now : Int)
    (chain : List Block) (p : Payload) (c : List Block) (b : Block)
    (h : _addBlock digest now chain p = (c, AddResult.ok b)) :
    b = mkBlock digest now chain p ∧ c = chain ++ [b] ∧
      validateChain digest c = Except.ok [] := by
  unfold _addBlock at h
  split at h
  · simp at h
  · rename_i errs hv
    split at h
    · rename_i he
      simp only [Prod.mk.injEq, AddResult.ok.injEq] at h
      obtain ⟨rfl, rfl⟩ := h
      exact ⟨rfl, rfl, by rw [hv, List.isEmpty_iff.mp he]⟩
    · simp at h

/-- The committed star block after an in-place mutation that zeroes its
stored height field and corrupts its previousBlockHash. -/
def mutatedBlock1 : Block :=
  { demoBlock1 with height := 0, previousBlockHash := some "bogus" }

/-- A two-block chain mutated after commit: the second block's height
field was zeroed and its previousBlockHash corrupted. -/
def mutatedChain : List Block :=
  [demoGenesis, mutatedBlock1]

/-- The committed star block after an in-place mutation that corrupts only
its previousBlockHash (the height field keeps its committed value 1). -/
def linkBrokenBlock1 : Block :=
  { demoBlock1 with previousBlockHash := some "bogus" }

/-- A two-block chain mutated after commit: the second block's
previousBlockHash corrupted, heights intact. -/
def linkBrokenChain : List Block :=
  [demoGenesis, linkBrokenBlock1]

/-- When the post-append validation returns an error list, `_addBlock`
reduces to the empty-versus-non-empty decision on that list. -/
theorem addBlock_of_validate_ok (digest : HashInput → String) (now : Int)
    (chain : List Block) (p : Payload) (errs : List String)
    (h : validateChain digest (chain ++ [mkBlock digest now chain p]) =
      Except.ok errs) :
    _addBlock digest now chain p =
      if errs.isEmpty then
        (chain ++ [mkBlock digest now chain p],
          AddResult.ok (mkBlock digest now chain p))
      else (chain, AddResult.rejected errs) := by
  unfold _addBlock
  rw [h]

/-- On the empty chain (the `initializeChain` case) `_addBlock` always
succeeds: the assembled block has height 0, so the linkage check is
skipped, and its recomputed hash matches the one just assigned. -/
theorem addBlock_genesis_ok (digest : HashInput → String) (now : Int) (p : Payload) :
    _addBlock digest now [] p =
      ([mkBlock digest now [] p], AddResult.ok (mkBlock digest now [] p)) := by
  have hh : (mkBlock digest now [] p).height = 0 := by simp [mkBlock]
  have hsv : (mkBlock digest now [] p).selfValidate digest = true := by
    simp [mkBlock, Block.selfValidate, Block.hashInput]
  unfold _addBlock
  simp [validateChain, linkScan, linkErrAt, contentScan, hh, hsv]

/-- A successful `submitStar` call is exactly a successful delegated
`_addBlock` call on the star-record payload. -/
theorem submitStar_ok_spelled (digest : HashInput → String)
    (verify : String → String → String → Bool) (now : Int) (chain : List Block)
    (address message signature star : String) (c : List Block) (b : Block)
    (h : submitStar digest verify now chain address message signature star =
      (c, SubmitResult.ok b)) :
    _addBlock digest now chain (Payload.starRecord address message signature star) =
      (c, AddResult.ok b) := by
  unfold submitStar at h
  split at h
  · split at h
    · split at h
      · rename_i heq
        simp only [Prod.mk.injEq, SubmitResult.ok.injEq] at h
        obtain ⟨rfl, rfl⟩ := h
        exact heq
      · simp at h
      · simp at h
    · simp at h
  · simp at h

/-- Every chain reachable through the admission pipeline passes full
validation with an empty error log. -/
theorem built_validate {digest : HashInput → String} {c : List Block}
    (h : Built digest c) : validateChain digest c = Except.ok [] := by
  induction h with
  | genesis now =>
    rw [addBlock_genesis_ok digest now genesisPayload]
    exact (addBlock_ok_iff_spelled digest now [] genesisPayload _ _
      (addBlock_genesis_ok digest now genesisPayload)).2.2
  | stepAdd now p chain c b _ heq _ =>
    exact (addBlock_ok_iff_spelled digest now chain p c b heq).2.2
  | stepSubmit verify now chain c address message signature star b _ heq _ =>
    exact (addBlock_ok_iff_spelled digest now chain _ c b
      (submitStar_ok_spelled digest verify now chain address message signature star c b heq)).2.2

/-- On every chain reachable through the admission pipeline, the stored
height of the block at position `i` is `i`. -/
theorem built_heights {digest : HashInput → String} {ch : List Block}
    (h : Built digest ch) : ∀ i (hi : i < ch.length), ch[i].height = i := by
  induction h with
  | genesis now =>
    rw [addBlock_genesis_ok digest now genesisPayload]
    intro i hi
    have h1 : i < 1 := by simpa using hi
    obtain rfl := Nat.lt_one_iff.mp h1
    simp [mkBlock]
  | stepAdd now p chain c b _ heq ih =>
    obtain ⟨rfl, rfl, _⟩ := addBlock_ok_iff_spelled digest now chain p c b heq
    intro i hi
    rcases Nat.lt_or_ge i chain.length with hlt | hge
    · rw [List.getElem_append_left hlt]
      exact ih i hlt
    · have hlen : i < chain.length + 1 := by simpa using hi
      have hieq : i = chain.length := Nat.le_antisymm (Nat.lt_succ_iff.mp hlen) hge
      subst hieq
      simp [List.getElem_concat_length, mkBlock]
  | stepSubmit verify now chain c address message signature star b _ heq ih =>
    obtain ⟨rfl, rfl, _⟩ := addBlock_ok_iff_spelled digest now chain _ c b
      (submitStar_ok_spelled digest verify now chain address message signature star c b heq)
    intro i hi
    rcases Nat.lt_or_ge i chain.length with hlt | hge
    · rw [List.getElem_append_left hlt]
      exact ih i hlt
    · have hlen : i < chain.length + 1 := by simpa using hi
      have hieq : i = chain.length := Nat.le_antisymm (Nat.lt_succ_iff.mp hlen) hge
      subst hieq
      simp [List.getElem_concat_length, mkBlock]

/-- C1: for every chain constructed exclusively through the admission
pipeline — the genesis block created at initialization plus any sequence
of successful `_addBlock` / `submitStar` calls — running `validateChain`
returns an empty error list. -/
theorem c1_pipeline_chain_validates_empty (digest : HashInput → String)
    (ch : List Block) (h : Built digest ch) :
    validateChain digest ch = Except.ok [] :=
  built_validate h

/-- C1 witness: the concrete two-block chain built by initialization at
clock 100 followed by a successful `submitStar` at clock 1200 validates
with an empty error log. -/
theorem c1_pipeline_chain_validates_empty_witness :
    validateChain toyDigest demoChain2 = Except.ok [] :=
  c1_pipeline_chain_validates_empty toyDigest demoChain2
    (Built.stepSubmit acceptAll 1200 demoChain1 demoChain2 "addr1" demoMessage
      "sig1" "star1" demoBlock1
      ((show (_addBlock toyDigest 100 [] genesisPayload).1 = demoChain1 by decide) ▸
        Built.genesis 100)
      (by decide))

/-- C2: on any starting chain, when the post-append whole-chain validation
returns a non-empty error list, `_addBlock` rejects with exactly those
errors and the chain is restored to its pre-call length and content; when
the list is empty, the call resolves with the committed block, which is
the new last element of the chain. -/
theorem c2_addBlock_rollback_or_commit (digest : HashInput → String)
    (now : Int) (chain : List Block) (p : Payload) (errs : List String)
    (h : validateChain digest (chain ++ [mkBlock digest now chain p]) =
      Except.ok errs) :
    (errs ≠ [] → _addBlock digest now chain p = (chain, AddResult.rejected errs)) ∧
    (errs = [] →
      _addBlock digest now chain p =
        (chain ++ [mkBlock digest now chain p],
          AddResult.ok (mkBlock digest now chain p)) ∧
      (chain ++ [mkBlock digest now chain p]).getLast? =
        some (mkBlock digest now chain p)) := by
  constructor
  · intro hne
    rw [addBlock_of_validate_ok digest now chain p errs h,
      if_neg (fun hh => hne (List.isEmpty_iff.mp hh))]
  · intro he
    subst he
    exact ⟨addBlock_of_validate_ok digest now chain p [] h,
      List.getLast?_concat chain⟩

/-- C2 witness: at clock 100 on the empty chain the post-append validation
is empty and the genesis block commits as the last element; at clock 300
on a chain whose stored genesis hash was corrupted the post-append
validation is non-empty and the call rejects with those errors, restoring
the corrupted chain unchanged. -/
theorem c2_addBlock_rollback_or_commit_witness :
    (_addBlock toyDigest 100 [] genesisPayload =
      ([] ++ [mkBlock toyDigest 100 [] genesisPayload],
        AddResult.ok (mkBlock toyDigest 100 [] genesisPayload)) ∧
     ([] ++ [mkBlock toyDigest 100 [] genesisPayload]).getLast? =
      some (mkBlock toyDigest 100 [] genesisPayload)) ∧
    _addBlock toyDigest 300
        [{ demoGenesis with hash := "corrupt" }] genesisPayload =
      ([{ demoGenesis with hash := "corrupt" }],
        AddResult.rejected [contentMsg 0 "corrupt"]) :=
  ⟨(c2_addBlock_rollback_or_commit toyDigest 100 [] genesisPayload []
      (by decide)).2 rfl,
   (c2_addBlock_rollback_or_commit toyDigest 300
      [{ demoGenesis with hash := "corrupt" }] genesisPayload
      [contentMsg 0 "corrupt"] (by decide)).1 (by decide)⟩

/-- C3: every block committed by `_addBlock` stores a hash equal to the
digest of the canonical serialization of its remaining fields, i.e. the
hash is a pure function of all fields other than the hash itself. -/
theorem c3_committed_hash_is_digest_of_rest (digest : HashInput → String)
    (now : Int) (chain c : List Block) (p : Payload) (b : Block)
    (h : _addBlock digest now chain p = (c, AddResult.ok b)) :
    b.hash = digest ⟨b.height, b.time, b.previousBlockHash, b.body⟩ := by
  obtain ⟨rfl, -, -⟩ := addBlock_ok_iff_spelled digest now chain p c b h
  rfl

/-- C3 witness: the hash of the concretely committed star block is the
test digest of its non-hash fields. -/
theorem c3_committed_hash_is_digest_of_rest_witness :
    demoBlock1.hash =
      toyDigest ⟨demoBlock1.height, demoBlock1.time,
        demoBlock1.previousBlockHash, demoBlock1.body⟩ :=
  c3_committed_hash_is_digest_of_rest toyDigest 1200 demoChain1 demoChain2
    (Payload.starRecord "addr1" demoMessage "sig1" "star1") demoBlock1
    (by decide)

/-- C4: a `submitStar` call whose message embeds a timestamp at least 300
seconds older than the clock rejects with the window-expired error and
leaves the chain unchanged, for every signature-verification primitive —
the verifier's verdict is never consulted. -/
theorem c4_window_expired (digest : HashInput → String)
    (verify : String → String → String → Bool) (now : Int)
    (chain : List Block) (address message signature star : String) (t : Int)
    (ht : jsParseInt ((jsSplit ':' message).get? 1) = some t)
    (hel : 300 ≤ now - t) :
    submitStar digest verify now chain address message signature star =
      (chain, SubmitResult.windowExpired) := by
  unfold submitStar
  rw [ht, show inValidationWindow now (some t) = false by
    simp [inValidationWindow]; omega]
  rfl

/-- C4 witness: submitting the clock-1000 challenge at clock 1400
(elapsed 400) rejects with the window-expired error and keeps the chain,
even under a verifier that accepts every signature. -/
theorem c4_window_expired_witness :
    submitStar toyDigest acceptAll 1400 demoChain1 "addr1" demoMessage
        "sig1" "star1" =
      (demoChain1, SubmitResult.windowExpired) :=
  c4_window_expired toyDigest acceptAll 1400 demoChain1 "addr1" demoMessage
    "sig1" "star1" 1000 (by decide) (by decide)

/-- C5: a `submitStar` call within the 300-second window whose signature
fails the external verification primitive rejects with the
invalid-signature error and appends no block to the chain. -/
theorem c5_invalid_signature (digest : HashInput → String)
    (verify : String → String → String → Bool) (now : Int)
    (chain : List Block) (address message signature star : String) (t : Int)
    (ht : jsParseInt ((jsSplit ':' message).get? 1) = some t)
    (hel : now - t < 300)
    (hv : verify message address signature = false) :
    submitStar digest verify now chain address message signature star =
      (chain, SubmitResult.invalidSignature) := by
  unfold submitStar
  rw [ht, show inValidationWindow now (some t) = true by
    simp [inValidationWindow]; omega]
  rw [if_pos rfl, hv]
  rfl

/-- C5 witness: submitting the clock-1000 challenge at clock 1200
(elapsed 200) under a verifier that rejects every signature fails with the
invalid-signature error and keeps the chain. -/
theorem c5_invalid_signature_witness :
    submitStar toyDigest (fun _ _ _ => false) 1200 demoChain1 "addr1"
        demoMessage "sig1" "star1" =
      (demoChain1, SubmitResult.invalidSignature) :=
  c5_invalid_signature toyDigest (fun _ _ _ => false) 1200 demoChain1
    "addr1" demoMessage "sig1" "star1" 1000 (by decide) (by decide) rfl

/-- C10: a `submitStar` call whose message has no parseable integer as its
second colon-delimited field makes the embedded timestamp `NaN`, the
window comparison false, and the call rejects with the window-expired
error — not the invalid-signature error — for every verification
primitive and without touching the chain. -/
theorem c10_unparseable_time_rejects_window (digest : HashInput → String)
    (verify : String → String → String → Bool) (now : Int)
    (chain : List Block) (address message signature star : String)
    (hnan : jsParseInt ((jsSplit ':' message).get? 1) = none) :
    submitStar digest verify now chain address message signature star =
      (chain, SubmitResult.windowExpired) ∧
    (chain, SubmitResult.windowExpired) ≠
      (chain, SubmitResult.invalidSignature) := by
  refine ⟨?_, by simp⟩
  unfold submitStar
  rw [hnan]
  rfl

/-- C10 witness: a message without any colon rejects with the
window-expired error under an accept-all verifier, keeping the chain. -/
theorem c10_unparseable_time_rejects_window_witness :
    submitStar toyDigest acceptAll 1200 demoChain1 "addr1" "nocolonhere"
        "sig1" "star1" =
      (demoChain1, SubmitResult.windowExpired) ∧
    (demoChain1, SubmitResult.windowExpired) ≠
      (demoChain1, SubmitResult.invalidSignature) :=
  c10_unparseable_time_rejects_window toyDigest acceptAll 1200 demoChain1
    "addr1" "nocolonhere" "sig1" "star1" (by decide)

/-- Membership in the content scan: every block that fails its
self-validation contributes its content error, whatever its position. -/
theorem contentScan_mem (digest : HashInput → String) :
    ∀ (rest : List Block) (start j : Nat) (hj : j < rest.length),
      rest[j].selfValidate digest = false →
      contentMsg (start + j) rest[j].hash ∈ contentScan digest start rest := by
  intro rest
  induction rest with
  | nil => intro start j hj; cases hj
  | cons b t ih =>
    intro start j hj hsv
    cases j with
    | zero =>
      simp only [List.getElem_cons_zero] at hsv ⊢
      simp [contentScan, hsv]
    | succ j' =>
      simp only [List.getElem_cons_succ] at hsv ⊢
      have hj' : j' < t.length := Nat.lt_of_succ_lt_succ hj
      have := ih (start + 1) j' hj' hsv
      rw [show start + (j' + 1) = start + 1 + j' by omega]
      exact List.mem_append.mpr (Or.inr this)

/-- Membership in the linkage scan: when the scan returns without a
`TypeError`, every position whose block has a positive stored height and a
previousBlockHash differing from the hash the code reads at the previous
index contributes its linkage error. -/
theorem linkScan_mem (chain : List Block) :
    ∀ (rest : List Block) (start : Nat) (l : List String),
      linkScan chain start rest = Except.ok l →
      ∀ j (hj : j < rest.length) (prev : Block),
        0 < rest[j].height →
        (if start + j = 0 then none else chain.get? (start + j - 1)) = some prev →
        rest[j].previousBlockHash ≠ some prev.hash →
        linkageMsg (start + j) rest[j].previousBlockHash prev.hash ∈ l := by
  intro rest
  induction rest with
  | nil => intro start l h j hj; cases hj
  | cons b t ih =>
    intro start l h j hj prev hh hprev hne
    unfold linkScan at h
    cases hA : linkErrAt chain start b with
    | error e => rw [hA] at h; simp at h
    | ok here =>
      rw [hA] at h
      cases hB : linkScan chain (start + 1) t with
      | error e => rw [hB] at h; simp at h
      | ok there =>
        rw [hB] at h
        simp only [] at h
        cases j with
        | zero =>
          simp only [List.getElem_cons_zero] at hh hprev hne ⊢
          unfold linkErrAt at hA
          rw [if_pos hh] at hA
          rw [show (start + 0 : Nat) = start by omega] at hprev ⊢
          rw [hprev] at hA
          simp only [hne, if_pos, ne_eq, not_false_eq_true, if_true] at hA
          have hl : here ++ there = l := by
            cases h; rfl
          rw [← hl]
          have : linkageMsg start b.previousBlockHash prev.hash ∈ here := by
            rw [← (Except.ok.injEq .. ▸ hA : _ = here)]
            exact List.mem_singleton.mpr rfl
          exact List.mem_append.mpr (Or.inl this)
        | succ j' =>
          simp only [List.getElem_cons_succ] at hh hprev hne ⊢
          have hj' : j' < t.length := Nat.lt_of_succ_lt_succ hj
          have harith : start + (j' + 1) = start + 1 + j' := by omega
          rw [harith] at hprev ⊢
          have := ih (start + 1) there hB j' hj' prev hh hprev hne
          have hl : here ++ there = l := by
            cases h; rfl
          rw [← hl]
          exact List.mem_append.mpr (Or.inr this)

/-- C6 counterexample: on a chain whose second block was mutated after
commit (height field zeroed, previousBlockHash corrupted), index 1 has a
previousBlockHash differing from the actual previous hash, yet the
returned error list holds only the content error — the linkage error the
claim demands for index 1 is absent, because the code guards the linkage
check by the stored height field rather than by the index. -/
theorem c6_counterexample_height_guard :
    mutatedBlock1.previousBlockHash ≠ some demoGenesis.hash ∧
    validateChain toyDigest mutatedChain =
      Except.ok [contentMsg 1 mutatedBlock1.hash] ∧
    linkageMsg 1 mutatedBlock1.previousBlockHash demoGenesis.hash ∉
      [contentMsg 1 mutatedBlock1.hash] :=
  ⟨by decide, by decide, by decide⟩

/-- C6 amended: whenever `validateChain` returns an error list at all (it
throws instead when the block at index 0 has a positive stored height),
the list contains a linkage error for every index `i > 0` whose block has
a positive stored height field and a previousBlockHash differing from the
hash of the block at `i - 1`, and a content error for every index whose
block fails its `selfValidate` recomputation; blocks whose stored height
field is zero are skipped by the linkage check even at indices `i > 0`. -/
theorem c6_amended_validate_reports (digest : HashInput → String)
    (chain : List Block) (errs : List String)
    (h : validateChain digest chain = Except.ok errs) :
    (∀ i (hi : i < chain.length), 0 < i → 0 < chain[i].height →
      chain[i].previousBlockHash ≠ some chain[i - 1].hash →
      linkageMsg i chain[i].previousBlockHash chain[i - 1].hash ∈ errs) ∧
    (∀ i (hi : i < chain.length), chain[i].selfValidate digest = false →
      contentMsg i chain[i].hash ∈ errs) := by
  unfold validateChain at h
  cases hL : linkScan chain 0 chain with
  | error e => rw [hL] at h; simp at h
  | ok linkErrs =>
    rw [hL] at h
    simp only [] at h
    have herrs : linkErrs ++ contentScan digest 0 chain = errs := by
      cases h; rfl
    subst herrs
    constructor
    · intro i hi hpos hh hne
      have hi1 : i - 1 < chain.length := by omega
      have hprev : (if 0 + i = 0 then none else chain.get? (0 + i - 1)) =
          some chain[i - 1] := by
        rw [if_neg (by omega)]
        rw [show (0 + i - 1 : Nat) = i - 1 by omega]
        rw [List.get?_eq_getElem?, List.getElem?_eq_getElem hi1]
      have hmem := linkScan_mem chain chain 0 linkErrs hL i hi chain[i - 1]
        hh hprev hne
      rw [show (0 + i : Nat) = i by omega] at hmem
      exact List.mem_append.mpr (Or.inl hmem)
    · intro i hi hsv
      have hmem := contentScan_mem digest chain 0 i hi hsv
      rw [show (0 + i : Nat) = i by omega] at hmem
      exact List.mem_append.mpr (Or.inr hmem)

/-- C6 amended witness: on the chain whose second block kept its committed
height 1 but had its previousBlockHash corrupted, the returned error list
contains the linkage error for index 1 and the content error for index 1
(the corrupted field also breaks the block's own hash recomputation). -/
theorem c6_amended_validate_reports_witness :
    linkageMsg 1 linkBrokenBlock1.previousBlockHash demoGenesis.hash ∈
      [linkageMsg 1 (some "bogus") demoGenesis.hash,
        contentMsg 1 linkBrokenBlock1.hash] ∧
    contentMsg 1 linkBrokenBlock1.hash ∈
      [linkageMsg 1 (some "bogus") demoGenesis.hash,
        contentMsg 1 linkBrokenBlock1.hash] :=
  ⟨(c6_amended_validate_reports toyDigest linkBrokenChain
      [linkageMsg 1 (some "bogus") demoGenesis.hash,
        contentMsg 1 linkBrokenBlock1.hash] (by decide)).1
      1 (by decide) (by decide) (by decide) (by decide),
   (c6_amended_validate_reports toyDigest linkBrokenChain
      [linkageMsg 1 (some "bogus") demoGenesis.hash,
        contentMsg 1 linkBrokenBlock1.hash] (by decide)).2
      1 (by decide) (by decide)⟩

/-- C7: `_addBlock` derives the new block's identity fields as height =
current chain length, time = the clock value, and previousBlockHash = the
last block's hash when the chain is non-empty (no previousBlockHash on the
empty chain); consequently, on every pipeline-built chain, the block at
index `i` has height `i`. -/
theorem c7_identity_fields (digest : HashInput → String) (now : Int)
    (chain : List Block) (p : Payload) :
    (mkBlock digest now chain p).height = chain.length ∧
    (mkBlock digest now chain p).time = now ∧
    (mkBlock digest now chain p).previousBlockHash =
      chain.getLast?.map Block.hash ∧
    (∀ ch : List Block, Built digest ch →
      ∀ i (hi : i < ch.length), ch[i].height = i) := by
  refine ⟨rfl, rfl, ?_, fun ch hb i hi => built_heights hb i hi⟩
  show (if 0 < chain.length then
      (chain.get? (chain.length - 1)).map Block.hash
    else none) = chain.getLast?.map Block.hash
  by_cases hc : 0 < chain.length
  · rw [if_pos hc, List.get?_eq_getElem?, ← List.getLast?_eq_getElem?]
  · obtain rfl : chain = [] :=
      List.length_eq_zero.mp (Nat.eq_zero_of_not_pos hc)
    rw [if_neg hc]
    rfl

/-- C7 witness: the concrete star block committed at clock 1200 on the
one-block chain carries height 1, time 1200, and the genesis hash as its
previousBlockHash; on the concrete two-block pipeline chain the block at
index 1 has height 1. -/
theorem c7_identity_fields_witness :
    demoBlock1.height = demoChain1.length ∧
    demoBlock1.time = 1200 ∧
    demoBlock1.previousBlockHash = demoChain1.getLast?.map Block.hash ∧
    (demoChain2.get ⟨1, by decide⟩).height = 1 :=
  ⟨(c7_identity_fields toyDigest 1200 demoChain1
      (Payload.starRecord "addr1" demoMessage "sig1" "star1")).1,
   (c7_identity_fields toyDigest 1200 demoChain1
      (Payload.starRecord "addr1" demoMessage "sig1" "star1")).2.1,
   (c7_identity_fields toyDigest 1200 demoChain1
      (Payload.starRecord "addr1" demoMessage "sig1" "star1")).2.2.1,
   (c7_identity_fields toyDigest 1200 demoChain1
      (Payload.starRecord "addr1" demoMessage "sig1" "star1")).2.2.2
     demoChain2
     (Built.stepSubmit acceptAll 1200 demoChain1 demoChain2 "addr1"
       demoMessage "sig1" "star1" demoBlock1
       ((show (_addBlock toyDigest 100 [] genesisPayload).1 = demoChain1
          by decide) ▸ Built.genesis 100)
       (by decide))
     1 (by decide)⟩

/-- Destructuring the first element of a filtered list is the same as
`find?`: the first element satisfying the predicate, if any. -/
theorem filter_head?_eq_find? {α : Type} (f : α → Bool) (l : List α) :
    (l.filter f).head? = l.find? f := by
  induction l with
  | nil => rfl
  | cons a t ih =>
    by_cases hp : f a <;> simp [List.filter_cons, List.find?_cons, hp, ih]

/-- C8: lookups fail asymmetrically — `getBlockByHash` resolves the first
block (in chain order) with the given hash and rejects with the fixed
not-found message when no block matches, while `getBlockByHeight` resolves
the first block with the given height and resolves `none` (never rejects)
when no block matches. -/
theorem c8_lookup_asymmetry (chain : List Block) (h : String) (ht : Nat) :
    getBlockByHash chain h =
      (match chain.find? (fun b => b.hash == h) with
       | none => Except.error "No block with given hash exists"
       | some b => Except.ok b) ∧
    ((∀ b ∈ chain, b.hash ≠ h) →
      getBlockByHash chain h =
        Except.error "No block with given hash exists") ∧
    getBlockByHeight chain ht = chain.find? (fun b => b.height == ht) ∧
    ((∀ b ∈ chain, b.height ≠ ht) → getBlockByHeight chain ht = none) := by
  have hashChar : getBlockByHash chain h =
      (match chain.find? (fun b => b.hash == h) with
       | none => Except.error "No block with given hash exists"
       | some b => Except.ok b) := by
    rw [← filter_head?_eq_find?]
    cases hf : chain.filter (fun b => b.hash == h) with
    | nil => simp [getBlockByHash, hf]
    | cons b t => simp [getBlockByHash, hf]
  have heightChar : getBlockByHeight chain ht =
      chain.find? (fun b => b.height == ht) := by
    rw [← filter_head?_eq_find?]
    cases hf : chain.filter (fun b => b.height == ht) with
    | nil => simp [getBlockByHeight, hf]
    | cons b t => simp [getBlockByHeight, hf]
  refine ⟨hashChar, ?_, heightChar, ?_⟩
  · intro hmiss
    rw [hashChar]
    rw [List.find?_eq_none.mpr (fun b hb => by simpa using hmiss b hb)]
  · intro hmiss
    rw [heightChar]
    exact List.find?_eq_none.mpr (fun b hb => by simpa using hmiss b hb)

/-- C8 witness: on the concrete two-block chain, an unknown hash rejects
with the not-found message, a known hash resolves its block, an unknown
height resolves `none`, and a known height resolves its block. -/
theorem c8_lookup_asymmetry_witness :
    getBlockByHash demoChain2 "unknown" =
      Except.error "No block with given hash exists" ∧
    getBlockByHash demoChain2 demoBlock1.hash =
      (match demoChain2.find? (fun b => b.hash == demoBlock1.hash) with
       | none => Except.error "No block with given hash exists"
       | some b => Except.ok b) ∧
    getBlockByHeight demoChain2 5 = none ∧
    getBlockByHeight demoChain2 1 =
      demoChain2.find? (fun b => b.height == 1) :=
  ⟨(c8_lookup_asymmetry demoChain2 "unknown" 0).2.1 (by decide),
   (c8_lookup_asymmetry demoChain2 demoBlock1.hash 0).1,
   (c8_lookup_asymmetry demoChain2 "" 5).2.2.2 (by decide),
   (c8_lookup_asymmetry demoChain2 "" 1).2.2.1⟩

/-- C9: `getStarsByWalletAddress` returns exactly the star fields of the
blocks whose decoded payload has owner equal to the given address, in
chain order (blocks whose payload decodes to nothing or carries no owner
field — the genesis block — are silently excluded); and on every
pipeline-built chain the kept blocks' heights are strictly ascending. -/
theorem c9_stars_by_owner (chain : List Block) (address : String) :
    getStarsByWalletAddress chain address =
      (chain.filter (fun b =>
        match b.getBData with
        | some p => p.owner == some address
        | none => false)).map (fun b => b.body.star) ∧
    (∀ digest : HashInput → String, Built digest chain →
      (chain.filter (fun b =>
        match b.getBData with
        | some p => p.owner == some address
        | none => false)).Pairwise (fun x y => x.height < y.height)) := by
  constructor
  · unfold getStarsByWalletAddress
    rw [List.filter_map, List.map_map]
    rfl
  · intro digest hb
    have hpw : chain.Pairwise (fun x y => x.height < y.height) := by
      rw [List.pairwise_iff_getElem]
      intro i j hi hj hij
      rw [built_heights hb i hi, built_heights hb j hj]
      exact hij
    exact hpw.filter _

/-- C9 witness: on the concrete two-block chain the query for the star
owner returns exactly the filtered projection (the genesis block is
excluded), and the kept blocks' heights are strictly ascending. -/
theorem c9_stars_by_owner_witness :
    getStarsByWalletAddress demoChain2 "addr1" =
      (demoChain2.filter (fun b =>
        match b.getBData with
        | some p => p.owner == some "addr1"
        | none => false)).map (fun b => b.body.star) ∧
    (demoChain2.filter (fun b =>
      match b.getBData with
      | some p => p.owner == some "addr1"
      | none => false)).Pairwise (fun x y => x.height < y.height) :=
  ⟨(c9_stars_by_owner demoChain2 "addr1").1,
   (c9_stars_by_owner demoChain2 "addr1").2 toyDigest
     (Built.stepSubmit acceptAll 1200 demoChain1 demoChain2 "addr1"
       demoMessage "sig1" "star1" demoBlock1
       ((show (_addBlock toyDigest 100 [] genesisPayload).1 = demoChain1
          by decide) ▸ Built.genesis 100)
       (by decide))⟩
